import Mathlib

/-!
Verification of the access-control and resilient-fetch core of the
mcp-obsidian gateway client (src/mcp_obsidian/obsidian.py), as a shallow
embedding in Lean.  Pure string manipulation is translated directly;
network calls are modelled by an explicit oracle mapping a request URL to
the outcome of the transport, and the observable side effects (requests
issued, pacing sleeps) are collected in an event trace.
-/

set_option autoImplicit false

/-! ### Python string primitives used by the source -/

/-- Model of Python str.strip with a one-character set: remove every
occurrence of the character from both ends of the list, leaving interior
occurrences alone. -/
def stripChars (p : Char → Bool) (l : List Char) : List Char :=
  ((l.dropWhile p).reverse.dropWhile p).reverse

/-- Python path.strip(c) on strings. -/
def pyStrip (s : String) (c : Char) : String :=
  String.mk (stripChars (fun x => x == c) s.data)

/-- Python str.strip() with no argument: trim whitespace from both ends
(modelled with the ASCII whitespace predicate). -/
def pyStripWS (s : String) : String :=
  String.mk (stripChars Char.isWhitespace s.data)

/-- Python str.lower(), modelled on the ASCII range. -/
def pyLower (s : String) : String :=
  String.mk (s.data.map Char.toLower)

/-- Python str.startswith, stated on the underlying character lists. -/
def startswith (s pre : String) : Bool :=
  List.isPrefixOf pre.data s.data

/-- Split a character list at every occurrence of a separator character;
the empty list yields one empty group, as Python str.split does with an
explicit separator. -/
def splitChar (c : Char) : List Char → List (List Char)
  | [] => [[]]
  | x :: rest =>
    match splitChar c rest with
    | [] => [[]]
    | g :: gs => if x == c then [] :: g :: gs else (x :: g) :: gs

/-- Python s.split(sep) for a one-character separator. -/
def pySplit (s : String) (c : Char) : List String :=
  (splitChar c s.data).map String.mk

/-! ### fnmatch: shell-style glob matching

The source calls fnmatch.fnmatch(path, pattern).  The stdlib translates
the pattern into a regular expression: star becomes a match of any run of
characters including separators, a question mark matches one character,
and a bracket class matches one character from a set, with an optional
leading bang for negation.  We translate the pattern into a token list
following the same scan and then match tokens against the string. -/

inductive GlobTok where
  | star : GlobTok
  | anyChar : GlobTok
  | lit (c : Char) : GlobTok
  | cls (neg : Bool) (items : List (Char × Char)) : GlobTok
deriving DecidableEq

/-- Split a bracket-class body from the rest of the pattern, following the
stdlib scan: an optional leading bang is part of the body, a bracket-close
appearing first is a literal member, and the body ends at the next
bracket-close.  Returns none when the class is unterminated, in which case
the opening bracket is treated as a literal character. -/
def classSplit (l : List Char) : Option (List Char × List Char) :=
  let k1 : Nat := if l.head? = some '!' then 1 else 0
  let l1 := l.drop k1
  let k2 : Nat := if l1.head? = some ']' then 1 else 0
  let l2 := l1.drop k2
  match l2.findIdx? (fun c => c = ']') with
  | none => none
  | some j => some (l.take (k1 + k2 + j), l.drop (k1 + k2 + j + 1))

/-- Parse the members of a character class: a char, a dash, a char form a
range; anything else is a singleton (a dash at either end is literal, as
in a regular-expression class). -/
def classItems : List Char → List (Char × Char)
  | c1 :: '-' :: c2 :: rest => (c1, c2) :: classItems rest
  | c :: rest => (c, c) :: classItems rest
  | [] => []

/-- Build a class token from the scanned body (a leading bang negates). -/
def mkClsTok (stuff : List Char) : GlobTok :=
  match stuff with
  | '!' :: rest => GlobTok.cls true (classItems rest)
  | _ => GlobTok.cls false (classItems stuff)

/-- Translate a glob pattern into tokens.  The fuel argument dominates the
length of the list; every step consumes at least one character, so the
zero-fuel case is unreachable when the fuel is at least the length. -/
def translateGlobAux : Nat → List Char → List GlobTok
  | _, [] => []
  | 0, _ => []
  | fuel + 1, '*' :: rest => GlobTok.star :: translateGlobAux fuel rest
  | fuel + 1, '?' :: rest => GlobTok.anyChar :: translateGlobAux fuel rest
  | fuel + 1, '[' :: rest =>
      match classSplit rest with
      | some (stuff, rest2) => mkClsTok stuff :: translateGlobAux fuel rest2
      | none => GlobTok.lit '[' :: translateGlobAux fuel rest
  | fuel + 1, c :: rest => GlobTok.lit c :: translateGlobAux fuel rest

def translateGlob (l : List Char) : List GlobTok :=
  translateGlobAux l.length l

/-- One character against a class token body. -/
def inClass (neg : Bool) (items : List (Char × Char)) (ch : Char) : Bool :=
  let mem := items.any (fun it => decide (it.1 ≤ ch) && decide (ch ≤ it.2))
  if neg then !mem else mem

/-- Match a token list against a character list.  A star tries every
suffix of the remaining input, which is exactly the semantics of the
regular expression the stdlib compiles a star to. -/
def tokMatch : List GlobTok → List Char → Bool
  | [], s => s.isEmpty
  | GlobTok.star :: ts, s => s.tails.any (fun s2 => tokMatch ts s2)
  | GlobTok.anyChar :: ts, s =>
      match s with
      | [] => false
      | _ :: s2 => tokMatch ts s2
  | GlobTok.lit c :: ts, s =>
      match s with
      | [] => false
      | ch :: s2 => ch == c && tokMatch ts s2
  | GlobTok.cls neg items :: ts, s =>
      match s with
      | [] => false
      | ch :: s2 => inClass neg items ch && tokMatch ts s2

/-- Model of fnmatch.fnmatch(name, pattern) on a posix system, where case
normalization is the identity. -/
def fnmatchB (name pat : String) : Bool :=
  tokMatch (translateGlob pat.data) name.data

/-! ### The whitelist engine -/

/-- Which of the three interpretations of a pattern matched.  The source
tries them in this order inside one loop iteration and returns on the
first success. -/
inductive MatchKind where
  | exact : MatchKind
  | dir : MatchKind
  | glob : MatchKind
deriving DecidableEq

/-- The per-pattern cascade of Obsidian.is-path-allowed: exact equality
first, then directory containment (pattern plus separator must be a
prefix of the path), then glob matching.  Both arguments are already
normalized. -/
def patternMatchKind (normalized_path normalized_pattern : String) : Option MatchKind :=
  if normalized_path == normalized_pattern then some MatchKind.exact
  else if startswith normalized_path (normalized_pattern ++ "/") then some MatchKind.dir
  else if fnmatchB normalized_path normalized_pattern then some MatchKind.glob
  else none

/-- The state the Obsidian constructor builds.  Timeouts and SSL flags are
carried for completeness but play no role in the claims. -/
structure Client where
  api_key : String
  protocol : String
  host : String
  port : Nat
  verify_ssl : Bool
  whitelist : List String
  whitelist_enabled : Bool
deriving DecidableEq

/-- Obsidian init: lower-case the supplied scheme and keep http only on an
exact match after lowering; take the caller-supplied whitelist when given,
otherwise parse the environment string as comma-separated entries, each
trimmed, dropping entries that are empty after trimming; derive the
enabled flag from the final pattern count. -/
def initClient (api_key protocol host : String) (port : Nat) (verify_ssl : Bool)
    (whitelist : Option (List String)) (whitelist_env : String) : Client :=
  let proto := pyLower protocol
  let protocol2 := if proto == "http" then "http" else "https"
  let wl :=
    match whitelist with
    | some w => w
    | none =>
        if whitelist_env ≠ "" then
          ((pySplit whitelist_env ',').map pyStripWS).filter (fun x => x ≠ "")
        else []
  { api_key := api_key, protocol := protocol2, host := host, port := port,
    verify_ssl := verify_ssl, whitelist := wl,
    whitelist_enabled := decide (0 < wl.length) }

/-- Obsidian.is-path-allowed: when the whitelist is disabled every path is
allowed; otherwise strip the separator characters from both ends of the
path and of each pattern and run the three-way cascade per pattern,
allowing on the first success. -/
def Client.is_path_allowed (c : Client) (path : String) : Bool :=
  if c.whitelist_enabled = false then true
  else
    c.whitelist.any fun pattern =>
      (patternMatchKind (pyStrip path '/') (pyStrip pattern '/')).isSome

/-- The message of the PermissionError raised by validate-path-access;
it embeds the original, non-normalized path. -/
def accessDeniedMsg (path : String) : String :=
  "Access denied: Path \x27" ++ path ++ "\x27 is not in the whitelist"

/-- Obsidian.filter-files-by-whitelist: identity when disabled, otherwise
keep exactly the entries the policy allows, in order. -/
def filter_files_by_whitelist (c : Client) (files : List String) : List String :=
  if c.whitelist_enabled = false then files
  else files.filter (fun file => c.is_path_allowed file)

/-- Full path of a directory entry as built inside list-files-in-dir: the
directory, a separator and the entry when the directory string is
non-empty (Python truthiness), the bare entry otherwise. -/
def full_entry_path (dirpath file : String) : String :=
  if dirpath ≠ "" then dirpath ++ "/" ++ file else file

/-- The per-entry filtering loop of list-files-in-dir. -/
def dir_filter (c : Client) (dirpath : String) (files : List String) : List String :=
  files.filter (fun file => c.is_path_allowed (full_entry_path dirpath file))

/-! ### The error normalizer (Obsidian.safe-call)

The wrapped operation is modelled by its outcome: success with a value, a
non-success HTTP status carrying the raw body and the result of a later
attempt to parse that body as a JSON object, or a transport-level request
exception.  A body that does not parse to a JSON object is modelled as a
parse failure carrying the message of the exception that would escape. -/

inductive ParseOutcome where
  | dict (errorCode : Option Int) (message : Option String) : ParseOutcome
  | failed (msg : String) : ParseOutcome
deriving DecidableEq

inductive FOutcome (α : Type) where
  | ok (a : α) : FOutcome α
  | httpErr (content : String) (parse : ParseOutcome) : FOutcome α
  | reqExn (msg : String) : FOutcome α

def FOutcome.map {α β : Type} (f : α → β) : FOutcome α → FOutcome β
  | FOutcome.ok a => FOutcome.ok (f a)
  | FOutcome.httpErr c p => FOutcome.httpErr c p
  | FOutcome.reqExn m => FOutcome.reqExn m

/-- How a call terminates abnormally: the PermissionError raised by the
access check, the Exception raised by safe-call itself, or an error that
escapes safe-call uncaught (a sibling except clause does not catch an
exception raised inside another except clause). -/
inductive PyError where
  | permissionError (msg : String) : PyError
  | exception (msg : String) : PyError
  | uncaught (msg : String) : PyError
deriving DecidableEq

deriving instance DecidableEq for Except

/-- Obsidian.safe-call.  On an HTTPError the body is parsed only when it
is non-empty; a dict body supplies errorCode defaulting to -1 and message
defaulting to the unknown marker; a body that fails to parse lets the
parse error escape uncaught.  A RequestException becomes a generic
Exception with the request-failed message. -/
def safe_call {α : Type} : FOutcome α → Except PyError α
  | FOutcome.ok a => Except.ok a
  | FOutcome.httpErr content parse =>
      if content = "" then
        Except.error (PyError.exception ("Error " ++ toString (-1 : Int) ++ ": " ++ "<unknown>"))
      else
        match parse with
        | ParseOutcome.dict ec m =>
            Except.error (PyError.exception
              ("Error " ++ toString (ec.getD (-1)) ++ ": " ++ m.getD "<unknown>"))
        | ParseOutcome.failed m => Except.error (PyError.uncaught m)
  | FOutcome.reqExn m => Except.error (PyError.exception ("Request failed: " ++ m))

/-! ### Vault operations with event traces

The network is an oracle from a request URL to an FOutcome; the events a
call emits are collected so that a theorem can state that no request is
attempted for a denied path and where the pacing sleeps fall. -/

inductive NetEvent where
  | request (url : String) : NetEvent
  | sleep : NetEvent
deriving DecidableEq

def get_base_url (c : Client) : String :=
  c.protocol ++ "://" ++ c.host ++ ":" ++ toString c.port

def vault_url (c : Client) (filepath : String) : String :=
  get_base_url c ++ "/vault/" ++ filepath

/-- Obsidian.get-file-contents: validate access first (raising a
PermissionError with no request issued), then run the GET through
safe-call. -/
def get_file_contents (c : Client) (env : String → FOutcome String) (filepath : String) :
    Except PyError String × List NetEvent :=
  if c.is_path_allowed filepath = false then
    (Except.error (PyError.permissionError (accessDeniedMsg filepath)), [])
  else
    let url := vault_url c filepath
    (safe_call (env url), [NetEvent.request url])

/-- Obsidian.list-files-in-dir: validate the directory first, then fetch
the entry list and keep only entries whose full path the policy allows. -/
def list_files_in_dir (c : Client) (env : String → FOutcome (List String)) (dirpath : String) :
    Except PyError (List String) × List NetEvent :=
  if c.is_path_allowed dirpath = false then
    (Except.error (PyError.permissionError (accessDeniedMsg dirpath)), [])
  else
    let url := get_base_url c ++ "/vault/" ++ dirpath ++ "/"
    (safe_call ((env url).map (fun files => dir_filter c dirpath files)),
     [NetEvent.request url])

/-- Obsidian.list-files-in-vault: no validation (the root is not a path
argument); the returned entries are filtered by the whitelist. -/
def list_files_in_vault (c : Client) (env : String → FOutcome (List String)) :
    Except PyError (List String) × List NetEvent :=
  let url := get_base_url c ++ "/vault/"
  (safe_call ((env url).map (fun files => filter_files_by_whitelist c files)),
   [NetEvent.request url])

/-! ### Structured-query search (Obsidian.search-json) -/

/-- One search result, keeping only the fields the filter consults plus an
opaque remainder so that survival of a whole result is observable.  An
absent JSON key is None. -/
structure SearchResult where
  path : Option String
  filename : Option String
  rest : String
deriving DecidableEq

/-- The field the post-filter checks: the path key first, the filename key
when path is absent, the empty string when both are absent. -/
def result_path_field (r : SearchResult) : String :=
  (r.path).getD ((r.filename).getD "")

/-- The post-filtering loop of search-json: applied only when the
whitelist is enabled, keeping results whose consulted field the policy
allows, in order. -/
def search_json_filter (c : Client) (results : List SearchResult) : List SearchResult :=
  if c.whitelist_enabled = true then
    results.filter (fun r => c.is_path_allowed (result_path_field r))
  else results

/-- Obsidian.search-json: POST the query, then filter. -/
def search_json (c : Client) (env : String → FOutcome (List SearchResult)) :
    Except PyError (List SearchResult) × List NetEvent :=
  let url := get_base_url c ++ "/search/"
  (safe_call ((env url).map (fun results => search_json_filter c results)),
   [NetEvent.request url])

/-! ### The batch fetcher (Obsidian.get-batch-file-contents)

The loop body: validate access (a PermissionError is caught by the first
except clause and contributes a block with the denial message and no
events), sleep before every request except the first, issue the GET
through safe-call, and on any exception contribute a block with the
failure message.  No outcome aborts the remaining items, and the function
is total: it never raises. -/

def batch_step (c : Client) (env : String → FOutcome String) (i : Nat) (filepath : String) :
    String × List NetEvent :=
  if c.is_path_allowed filepath = false then
    ("# " ++ filepath ++ "\n\n" ++ accessDeniedMsg filepath ++ "\n\n---\n\n", [])
  else
    let url := vault_url c filepath
    let events := (if 0 < i then [NetEvent.sleep] else []) ++ [NetEvent.request url]
    match safe_call (env url) with
    | Except.ok content =>
        ("# " ++ filepath ++ "\n\n" ++ content ++ "\n\n---\n\n", events)
    | Except.error (PyError.permissionError m) =>
        ("# " ++ filepath ++ "\n\n" ++ m ++ "\n\n---\n\n", events)
    | Except.error (PyError.exception m) =>
        ("# " ++ filepath ++ "\n\nError reading file: " ++ m ++ "\n\n---\n\n", events)
    | Except.error (PyError.uncaught m) =>
        ("# " ++ filepath ++ "\n\nError reading file: " ++ m ++ "\n\n---\n\n", events)

/-- The enumerate loop, threading the item index. -/
def batch_go (c : Client) (env : String → FOutcome String) :
    Nat → List String → List (String × List NetEvent)
  | _, [] => []
  | i, p :: rest => batch_step c env i p :: batch_go c env (i + 1) rest

/-- The blocks the batch appends, in order. -/
def batch_items (c : Client) (env : String → FOutcome String) (filepaths : List String) :
    List String :=
  (batch_go c env 0 filepaths).map Prod.fst

/-- The events the whole batch emits, in order. -/
def batch_trace (c : Client) (env : String → FOutcome String) (filepaths : List String) :
    List NetEvent :=
  ((batch_go c env 0 filepaths).map Prod.snd).flatten

/-- Obsidian.get-batch-file-contents returns the concatenation of the
blocks. -/
def get_batch_file_contents (c : Client) (env : String → FOutcome String)
    (filepaths : List String) : String :=
  String.join (batch_items c env filepaths)

/-! ### Helper lemmas -/

theorem stripChars_cons_pos (p : Char → Bool) (c : Char) (l : List Char) (h : p c = true) :
    stripChars p (c :: l) = stripChars p l := by
  simp [stripChars, List.dropWhile_cons, h]

theorem stripChars_append_pos (p : Char → Bool) (c : Char) (l : List Char) (h : p c = true) :
    stripChars p (l ++ [c]) = stripChars p l := by
  unfold stripChars
  rw [List.dropWhile_append]
  by_cases he : (l.dropWhile p).isEmpty
  · rw [if_pos he]
    rw [List.isEmpty_iff] at he
    simp [he, List.dropWhile_cons, h]
  · rw [if_neg he]
    rw [List.reverse_append]
    simp [List.dropWhile_cons, h]

theorem pyStrip_slash_cons (s : String) : pyStrip ("/" ++ s) '/' = pyStrip s '/' := by
  unfold pyStrip
  rw [String.data_append]
  have hd : ("/" : String).data = ['/'] := rfl
  rw [hd, List.singleton_append]
  rw [stripChars_cons_pos _ '/' s.data rfl]

theorem pyStrip_slash_append (s : String) : pyStrip (s ++ "/") '/' = pyStrip s '/' := by
  unfold pyStrip
  rw [String.data_append]
  have hd : ("/" : String).data = ['/'] := rfl
  rw [hd]
  rw [stripChars_append_pos _ '/' s.data rfl]

theorem is_path_allowed_congr (c : Client) (p q : String) (h : pyStrip p '/' = pyStrip q '/') :
    c.is_path_allowed p = c.is_path_allowed q := by
  unfold Client.is_path_allowed
  rw [h]

theorem is_path_allowed_of_disabled (c : Client) (h : c.whitelist_enabled = false)
    (path : String) : c.is_path_allowed path = true := by
  simp [Client.is_path_allowed, h]

/-! ### Concrete fixtures used by examples, witnesses and counterexamples -/

def cAlpha : Client := initClient "key" "https" "127.0.0.1" 27124 false
  (some ["projects/alpha", "daily/*.md"]) ""

def cA : Client := initClient "key" "https" "127.0.0.1" 27124 false (some ["a.md"]) ""

def cStar : Client := initClient "key" "https" "127.0.0.1" 27124 false (some ["*"]) ""

def envOk : String → FOutcome String := fun _ => FOutcome.ok "hello"

def envLOk : String → FOutcome (List String) := fun _ => FOutcome.ok []

def rEmpty : SearchResult := { path := none, filename := none, rest := "payload" }

/-! ### C1 -/

/-- The normalization rule exactly as the specification words it, for
comparison with the implemented rule: remove at most one leading and at
most one trailing separator character, leaving repeated separators beyond
the first in place. -/
def dropOneLead : List Char → List Char
  | '/' :: rest => rest
  | l => l

/-- Strip exactly one leading and one trailing separator, per the
specification wording. -/
def specStripOne (s : String) : String :=
  String.mk ((dropOneLead (dropOneLead s.data).reverse).reverse)

/-- The allow-decision the specification wording of the normalization rule
would produce, differing from the implementation only in the
normalization step. -/
def spec_is_path_allowed (whitelist : List String) (path : String) : Bool :=
  if whitelist.length = 0 then true
  else
    whitelist.any fun pattern =>
      let np := specStripOne path
      let npat := specStripOne pattern
      np == npat || startswith np (npat ++ "/") || fnmatchB np npat

/-- C1 counterexample: on a path with two leading separators the
implementation (which strips every leading and trailing separator) allows
the path, while the claimed strip-exactly-one normalization would leave
one leading separator in place and deny it. -/
theorem c1_counterexample :
    cAlpha.is_path_allowed "//projects/alpha" = true ∧
    spec_is_path_allowed ["projects/alpha", "daily/*.md"] "//projects/alpha" = false := by
  decide

/-- C1 (amended): is-path-allowed normalizes both the path and each
pattern by stripping all leading and all trailing separator characters
(interior separators are untouched), so adding leading or trailing
separators to the path or to every pattern never changes the decision. -/
theorem c1_normalization_strips_all_separators :
    ∀ (c : Client) (path : String),
      (c.is_path_allowed ("/" ++ path) = c.is_path_allowed path) ∧
      (c.is_path_allowed ("//" ++ path) = c.is_path_allowed path) ∧
      (c.is_path_allowed (path ++ "/") = c.is_path_allowed path) ∧
      (c.is_path_allowed (path ++ "//") = c.is_path_allowed path) ∧
      (({ c with whitelist := c.whitelist.map (fun pat => "/" ++ pat ++ "/") } : Client).is_path_allowed path
        = c.is_path_allowed path) := by
  have hslash : ("/" : String) ++ "/" = "//" := by decide
  have hstrip2 : ∀ s : String, pyStrip ("//" ++ s) '/' = pyStrip s '/' := by
    intro s
    have hsplit : ("//" : String) ++ s = "/" ++ ("/" ++ s) := by
      rw [← String.append_assoc, hslash]
    rw [hsplit, pyStrip_slash_cons, pyStrip_slash_cons]
  have hstrip2r : ∀ s : String, pyStrip (s ++ "//") '/' = pyStrip s '/' := by
    intro s
    have hsplit : s ++ ("//" : String) = (s ++ "/") ++ "/" := by
      rw [String.append_assoc, hslash]
    rw [hsplit, pyStrip_slash_append, pyStrip_slash_append]
  intro c path
  refine ⟨is_path_allowed_congr c _ _ (pyStrip_slash_cons path),
          is_path_allowed_congr c _ _ (hstrip2 path),
          is_path_allowed_congr c _ _ (pyStrip_slash_append path),
          is_path_allowed_congr c _ _ (hstrip2r path), ?_⟩
  unfold Client.is_path_allowed
  simp only [List.any_map]
  have hpat : ∀ pat : String, pyStrip ("/" ++ pat ++ "/") '/' = pyStrip pat '/' := by
    intro pat
    rw [pyStrip_slash_append, pyStrip_slash_cons]
  have hfun : ((fun pattern => (patternMatchKind (pyStrip path '/') (pyStrip pattern '/')).isSome)
        ∘ fun pat => "/" ++ pat ++ "/")
      = (fun pattern => (patternMatchKind (pyStrip path '/') (pyStrip pattern '/')).isSome) := by
    funext pat
    simp only [Function.comp]
    rw [hpat pat]
  rw [hfun]

/-! ### C3 -/

/-- C3: with patterns projects/alpha and daily/star.md the five example
decisions of the specification hold, and per pattern the three
interpretations (exact, directory containment, glob) are tried in that
order with the first match winning. -/
theorem c3_examples_and_cascade :
    (cAlpha.is_path_allowed "projects/alpha" = true) ∧
    (cAlpha.is_path_allowed "projects/alpha/notes.md" = true) ∧
    (cAlpha.is_path_allowed "projects/alphabeta" = false) ∧
    (cAlpha.is_path_allowed "daily/2024-01-01.md" = true) ∧
    (cAlpha.is_path_allowed "daily/sub/2024.md" = true) ∧
    (∀ np npat : String,
      (patternMatchKind np npat = some MatchKind.exact ↔ np = npat) ∧
      (patternMatchKind np npat = some MatchKind.dir ↔
        (np ≠ npat ∧ startswith np (npat ++ "/") = true)) ∧
      (patternMatchKind np npat = some MatchKind.glob ↔
        (np ≠ npat ∧ startswith np (npat ++ "/") = false ∧ fnmatchB np npat = true)) ∧
      ((patternMatchKind np npat).isSome
        = (np == npat || startswith np (npat ++ "/") || fnmatchB np npat))) := by
  refine ⟨by decide, by decide, by decide, by decide, by decide, ?_⟩
  intro np npat
  unfold patternMatchKind
  by_cases h1 : np = npat
  · simp [h1]
  · by_cases h2 : startswith np (npat ++ "/") = true
    · simp [h1, h2]
    · by_cases h3 : fnmatchB np npat = true <;>
        simp [h1, h2, h3]

/-! ### C9 -/

/-- C9: the enabled flag the constructor stores is exactly the decision
that the final pattern list is non-empty; with an empty pattern list (or,
equivalently, the flag off) every path is allowed and the patterns are
never consulted. -/
theorem c9_empty_whitelist_allows_all :
    ∀ (k pr h : String) (port : Nat) (v : Bool) (wl : Option (List String)) (we : String),
      ((initClient k pr h port v wl we).whitelist_enabled
          = decide (0 < (initClient k pr h port v wl we).whitelist.length)) ∧
      ((initClient k pr h port v wl we).whitelist = [] →
        ∀ path, (initClient k pr h port v wl we).is_path_allowed path = true) ∧
      ((initClient k pr h port v wl we).whitelist_enabled = false →
        ∀ path, (initClient k pr h port v wl we).is_path_allowed path = true) := by
  intro k pr h port v wl we
  refine ⟨rfl, ?_, ?_⟩
  · intro hw path
    apply is_path_allowed_of_disabled
    have he : (initClient k pr h port v wl we).whitelist_enabled
        = decide (0 < (initClient k pr h port v wl we).whitelist.length) := rfl
    rw [hw] at he
    simpa using he
  · intro he path
    exact is_path_allowed_of_disabled _ he path

/-- C9 witness: a constructed client with an explicitly empty whitelist
allows an arbitrary concrete path. -/
theorem c9_empty_whitelist_allows_all_witness :
    (initClient "k" "https" "h" 1 false (some []) "").is_path_allowed "secret/x.md" = true :=
  (c9_empty_whitelist_allows_all "k" "https" "h" 1 false (some []) "").2.1 (by decide) "secret/x.md"

/-! ### Batch lemmas -/

theorem batch_go_length (c : Client) (env : String → FOutcome String) :
    ∀ (paths : List String) (i : Nat), (batch_go c env i paths).length = paths.length := by
  intro paths
  induction paths with
  | nil => intro i; rfl
  | cons p rest ih =>
      intro i
      simp [batch_go, ih (i + 1)]

theorem batch_go_getElem (c : Client) (env : String → FOutcome String) :
    ∀ (paths : List String) (i j : Nat),
      (batch_go c env i paths)[j]? = (paths[j]?).map (fun p => batch_step c env (i + j) p) := by
  intro paths
  induction paths with
  | nil => intro i j; simp [batch_go]
  | cons p rest ih =>
      intro i j
      cases j with
      | zero => simp [batch_go]
      | succ j2 =>
          simp only [batch_go, List.getElem?_cons_succ]
          rw [ih (i + 1) j2]
          have harith : (i + 1) + j2 = i + (j2 + 1) := by omega
          rw [harith]

/-- The events one batch item emits, extracted from the loop body: none
when the access check fails (the PermissionError is raised before the
pacing sleep and before any request), otherwise the sleep for every index
after the first followed by the single request. -/
theorem batch_step_snd (c : Client) (env : String → FOutcome String) (i : Nat) (p : String) :
    (batch_step c env i p).2 =
      if c.is_path_allowed p = false then ([] : List NetEvent)
      else (if 0 < i then [NetEvent.sleep] else []) ++ [NetEvent.request (vault_url c p)] := by
  unfold batch_step
  by_cases h : c.is_path_allowed p = false
  · simp [h]
  · simp only [h, if_neg, ite_false]
    cases hsc : safe_call (env (vault_url c p)) with
    | ok a => simp [h]
    | error e => cases e <;> simp [h]

/-! ### C4 -/

/-- C4: a batch over any input list yields exactly one block per path, in
input order and of the same length (the block at index i is a function of
index i and the path at index i alone, so duplicates are kept and no path
is dropped, and no other item influences it); the model is a total
function, so the call never raises; a denied path contributes the block
with the denial message and a failed read contributes the block with the
failure message, neither aborting the remaining items. -/
theorem c4_batch_shape :
    ∀ (c : Client) (env : String → FOutcome String) (paths : List String),
      ((batch_items c env paths).length = paths.length) ∧
      (∀ i : Nat, (batch_items c env paths)[i]?
          = (paths[i]?).map (fun p => (batch_step c env i p).1)) ∧
      (∀ (i : Nat) (p : String), paths[i]? = some p → c.is_path_allowed p = false →
        (batch_items c env paths)[i]?
          = some ("# " ++ p ++ "\n\n" ++ accessDeniedMsg p ++ "\n\n---\n\n")) ∧
      (∀ (i : Nat) (p m : String), paths[i]? = some p → c.is_path_allowed p = true →
        safe_call (env (vault_url c p)) = Except.error (PyError.exception m) →
        (batch_items c env paths)[i]?
          = some ("# " ++ p ++ "\n\nError reading file: " ++ m ++ "\n\n---\n\n")) := by
  intro c env paths
  have hget : ∀ i : Nat, (batch_items c env paths)[i]?
      = (paths[i]?).map (fun p => (batch_step c env i p).1) := by
    intro i
    unfold batch_items
    rw [List.getElem?_map, batch_go_getElem c env paths 0 i, Option.map_map]
    have harith : 0 + i = i := by omega
    rw [harith]
    rfl
  refine ⟨?_, hget, ?_, ?_⟩
  · unfold batch_items
    rw [List.length_map, batch_go_length]
  · intro i p hp hdeny
    rw [hget i, hp]
    simp [batch_step, hdeny]
  · intro i p m hp hallow hsafe
    rw [hget i, hp]
    show some ((batch_step c env i p).1)
      = some ("# " ++ p ++ "\n\nError reading file: " ++ m ++ "\n\n---\n\n")
    unfold batch_step
    rw [hallow]
    simp [hsafe]

/-- C4 witness: in a concrete batch over an allowed and a denied path, the
second block is the denial block for the second path. -/
theorem c4_batch_shape_witness :
    (batch_items cA envOk ["a.md", "b.md"])[1]?
      = some ("# " ++ "b.md" ++ "\n\n" ++ accessDeniedMsg "b.md" ++ "\n\n---\n\n") :=
  (c4_batch_shape cA envOk ["a.md", "b.md"]).2.2.1 1 "b.md" (by decide) (by decide)

/-! ### C5 -/

/-- C5 counterexample: in a batch whose second path is denied, the full
event trace holds the single request for the first item and no sleep at
all, although the claim requires a pacing delay before every item after
the first, denied items included. -/
theorem c5_counterexample :
    batch_trace cA envOk ["a.md", "b.md"] = [NetEvent.request (vault_url cA "a.md")] ∧
    (batch_trace cA envOk ["a.md", "b.md"]).contains NetEvent.sleep = false := by
  decide

/-- C5 (amended): the pacing delay precedes the request of every item
after the first whose path passes the access check; no delay precedes the
first item; a denied item is recorded without any delay or request,
because the access check raises before the sleep. -/
theorem c5_pacing :
    ∀ (c : Client) (env : String → FOutcome String) (paths : List String) (j : Nat),
      ((batch_go c env 0 paths).map Prod.snd)[j]? =
        (paths[j]?).map (fun p =>
          if c.is_path_allowed p = false then ([] : List NetEvent)
          else (if 0 < j then [NetEvent.sleep] else []) ++ [NetEvent.request (vault_url c p)]) := by
  intro c env paths j
  rw [List.getElem?_map, batch_go_getElem c env paths 0 j]
  cases hp : paths[j]? with
  | none => rfl
  | some p =>
      show some ((batch_step c env (0 + j) p).2)
        = some (if c.is_path_allowed p = false then ([] : List NetEvent)
            else (if 0 < j then [NetEvent.sleep] else []) ++ [NetEvent.request (vault_url c p)])
      rw [batch_step_snd]
      have harith : 0 + j = j := by omega
      rw [harith]

/-! ### C6 -/

/-- C6: for the path-accepting single operations (read file, list
directory) a denied path makes the operation fail with the
PermissionError carrying the original non-normalized path, and the event
trace is empty: no network request is ever attempted. -/
theorem c6_access_check_before_network :
    ∀ (c : Client) (envF : String → FOutcome String) (envL : String → FOutcome (List String))
      (path : String),
      c.is_path_allowed path = false →
        (get_file_contents c envF path
            = (Except.error (PyError.permissionError (accessDeniedMsg path)), ([] : List NetEvent))) ∧
        (list_files_in_dir c envL path
            = (Except.error (PyError.permissionError (accessDeniedMsg path)), ([] : List NetEvent))) := by
  intro c envF envL path h
  constructor
  · simp [get_file_contents, h]
  · simp [list_files_in_dir, h]

/-- C6 witness: reading a concrete denied path produces the denial error
and an empty event trace. -/
theorem c6_access_check_before_network_witness :
    get_file_contents cA envOk "b.md"
      = (Except.error (PyError.permissionError (accessDeniedMsg "b.md")), ([] : List NetEvent)) :=
  (c6_access_check_before_network cA envOk envLOk "b.md" (by decide)).1

/-! ### C2 -/

/-- C2 counterexample: on a non-success status whose body is non-empty
but unparsable as JSON, the normalizer does not produce the default
protocol failure; the parse failure escapes uncaught, because an
exception raised inside one except clause is not caught by a sibling
clause of the same try statement. -/
theorem c2_counterexample :
    safe_call (FOutcome.httpErr "not json"
        (ParseOutcome.failed "Expecting value: line 1 column 1 (char 0)") : FOutcome String)
      = Except.error (PyError.uncaught "Expecting value: line 1 column 1 (char 0)") ∧
    safe_call (FOutcome.httpErr "not json"
        (ParseOutcome.failed "Expecting value: line 1 column 1 (char 0)") : FOutcome String)
      ≠ Except.error (PyError.exception "Error -1: <unknown>") := by
  decide

/-- C2 (amended): on a non-success status with an empty body the
normalizer produces the default protocol failure (code -1, message
unknown); a body parsing to a JSON object supplies errorCode defaulting
to -1 and message defaulting to unknown; a non-empty body that fails to
parse lets the parse error escape uncaught; a transport-level request
exception becomes the request-failed message. -/
theorem c2_error_normalization :
    ∀ (content : String) (parse : ParseOutcome) (ec : Option Int) (m : Option String)
      (pm : String),
      (safe_call (FOutcome.httpErr "" parse : FOutcome String)
          = Except.error (PyError.exception "Error -1: <unknown>")) ∧
      (safe_call (FOutcome.httpErr content (ParseOutcome.dict none none) : FOutcome String)
          = Except.error (PyError.exception "Error -1: <unknown>")) ∧
      (content ≠ "" →
        safe_call (FOutcome.httpErr content (ParseOutcome.dict ec m) : FOutcome String)
          = Except.error (PyError.exception
              ("Error " ++ toString (ec.getD (-1)) ++ ": " ++ m.getD "<unknown>"))) ∧
      (content ≠ "" →
        safe_call (FOutcome.httpErr content (ParseOutcome.failed pm) : FOutcome String)
          = Except.error (PyError.uncaught pm)) ∧
      (safe_call (FOutcome.reqExn pm : FOutcome String)
          = Except.error (PyError.exception ("Request failed: " ++ pm))) := by
  intro content parse ec m pm
  refine ⟨?_, ?_, ?_, ?_, rfl⟩
  · simp only [safe_call]
    rw [if_pos trivial]
    decide
  · by_cases hc : content = ""
    · simp only [safe_call]
      rw [if_pos hc]
      decide
    · simp only [safe_call]
      rw [if_neg hc]
      decide
  · intro hc
    simp only [safe_call]
    rw [if_neg hc]
  · intro hc
    simp only [safe_call]
    rw [if_neg hc]

/-- C2 witness: a parsed error body with both fields present yields the
formatted protocol failure. -/
theorem c2_error_normalization_witness :
    safe_call (FOutcome.httpErr "x"
        (ParseOutcome.dict (some 404) (some "Not Found")) : FOutcome String)
      = Except.error (PyError.exception
          ("Error " ++ toString ((some (404 : Int)).getD (-1)) ++ ": "
            ++ (some "Not Found").getD "<unknown>")) :=
  (c2_error_normalization "x" (ParseOutcome.dict (some 404) (some "Not Found"))
      (some 404) (some "Not Found") "boom").2.2.1 (by decide)

/-! ### C7 -/

/-- C7 counterexample: with the policy enabled by the single pattern star,
a result carrying neither a path key nor a filename key defaults to the
empty string yet survives the filter, because the star glob matches the
empty string; the claim that such a result is always denied when the
policy is enabled is therefore false. -/
theorem c7_counterexample :
    cStar.whitelist_enabled = true ∧
    search_json_filter cStar [rEmpty] = [rEmpty] := by
  decide

/-- C7 (amended): when the policy is enabled the filter keeps exactly the
results whose consulted field is allowed; the consulted field is the path
key when present, else the filename key, else the empty string; a result
defaulting to the empty string is then subject to the ordinary whitelist
check, so it is denied unless some pattern matches the empty string. -/
theorem c7_field_fallback :
    ∀ (c : Client) (rs : List SearchResult),
      (c.whitelist_enabled = true →
        search_json_filter c rs
          = rs.filter (fun r => c.is_path_allowed (result_path_field r))) ∧
      (c.whitelist_enabled = false → search_json_filter c rs = rs) ∧
      (∀ (r : SearchResult) (p : String), r.path = some p → result_path_field r = p) ∧
      (∀ (r : SearchResult) (f : String), r.path = none → r.filename = some f →
        result_path_field r = f) ∧
      (∀ r : SearchResult, r.path = none → r.filename = none → result_path_field r = "") ∧
      (∀ r : SearchResult, c.whitelist_enabled = true → r.path = none → r.filename = none →
        (r ∈ search_json_filter c rs ↔ (r ∈ rs ∧ c.is_path_allowed "" = true))) := by
  intro c rs
  refine ⟨?_, ?_, ?_, ?_, ?_, ?_⟩
  · intro he
    simp [search_json_filter, he]
  · intro he
    simp [search_json_filter, he]
  · intro r p hp
    simp [result_path_field, hp]
  · intro r f hp hf
    simp [result_path_field, hp, hf]
  · intro r hp hf
    simp [result_path_field, hp, hf]
  · intro r he hp hf
    simp [search_json_filter, he, List.mem_filter, result_path_field, hp, hf]

/-- C7 witness: for the star-pattern client and the keyless result, the
consulted field is the empty string and the result survives exactly
because the empty string is allowed. -/
theorem c7_field_fallback_witness :
    rEmpty ∈ search_json_filter cStar [rEmpty]
      ↔ (rEmpty ∈ [rEmpty] ∧ cStar.is_path_allowed "" = true) :=
  (c7_field_fallback cStar [rEmpty]).2.2.2.2.2 rEmpty (by decide) rfl rfl

/-! ### C8 -/

/-- C8 counterexample: the constructor lower-cases the supplied scheme
before comparing, so the upper-case HTTP selects http, not https as the
claim requires. -/
theorem c8_counterexample :
    (initClient "k" "HTTP" "h" 1 false (some []) "").protocol = "http" ∧
    (initClient "k" "HTTP" "h" 1 false (some []) "").protocol ≠ "https" := by
  decide

/-- C8 (amended): the stored scheme is http exactly when the supplied
value lower-cases to http; any value not lower-casing to http, garbage
included, yields https. -/
theorem c8_protocol_selection :
    ∀ (k pr h : String) (port : Nat) (v : Bool) (wl : Option (List String)) (we : String),
      ((initClient k pr h port v wl we).protocol
          = (if pyLower pr == "http" then "http" else "https")) ∧
      ((initClient k pr h port v wl we).protocol = "http" ↔ pyLower pr = "http") ∧
      (pyLower pr ≠ "http" → (initClient k pr h port v wl we).protocol = "https") := by
  intro k pr h port v wl we
  refine ⟨rfl, ?_, ?_⟩
  · by_cases hp : pyLower pr = "http"
    · have hb : (pyLower pr == "http") = true := by simpa using hp
      show (if pyLower pr == "http" then "http" else "https") = "http" ↔ pyLower pr = "http"
      rw [hb]
      simpa using hp
    · have hb : (pyLower pr == "http") = false := by simpa using hp
      show (if pyLower pr == "http" then "http" else "https") = "http" ↔ pyLower pr = "http"
      rw [hb]
      simp [hp]
  · intro hp
    have hb : (pyLower pr == "http") = false := by simpa using hp
    show (if pyLower pr == "http" then "http" else "https") = "https"
    rw [hb]
    rfl

/-- C8 witness: a garbage scheme string yields https. -/
theorem c8_protocol_selection_witness :
    (initClient "k" "garbage" "h" 1 false none "").protocol = "https" :=
  (c8_protocol_selection "k" "garbage" "h" 1 false none "").2.2 (by decide)

/-! ### C10 -/

/-- C10: both listing filters return a subsequence of the server list in
server order; an entry survives the root filter exactly when the policy
allows it, and the directory filter exactly when the policy allows its
full path (directory, separator, entry for a non-empty directory, the
bare entry otherwise); with the whitelist disabled both filters return
the server list unchanged. -/
theorem c10_listing_filter :
    ∀ (c : Client) (dirpath : String) (files : List String),
      List.Sublist (filter_files_by_whitelist c files) files ∧
      List.Sublist (dir_filter c dirpath files) files ∧
      (∀ f, f ∈ filter_files_by_whitelist c files
          ↔ (f ∈ files ∧ c.is_path_allowed f = true)) ∧
      (∀ f, f ∈ dir_filter c dirpath files
          ↔ (f ∈ files ∧ c.is_path_allowed (full_entry_path dirpath f) = true)) ∧
      (c.whitelist_enabled = false →
        filter_files_by_whitelist c files = files ∧ dir_filter c dirpath files = files) := by
  intro c dirpath files
  refine ⟨?_, ?_, ?_, ?_, ?_⟩
  · unfold filter_files_by_whitelist
    by_cases he : c.whitelist_enabled = false
    · rw [if_pos he]
    · rw [if_neg he]
      exact List.filter_sublist files
  · exact List.filter_sublist files
  · intro f
    unfold filter_files_by_whitelist
    by_cases he : c.whitelist_enabled = false
    · rw [if_pos he]
      simp [is_path_allowed_of_disabled c he f]
    · rw [if_neg he]
      exact List.mem_filter
  · intro f
    exact List.mem_filter
  · intro he
    constructor
    · unfold filter_files_by_whitelist
      rw [if_pos he]
    · unfold dir_filter
      rw [List.filter_eq_self]
      intro a _
      exact is_path_allowed_of_disabled c he (full_entry_path dirpath a)

/-- C10 witness: with a disabled whitelist a concrete directory listing is
returned unchanged. -/
theorem c10_listing_filter_witness :
    dir_filter (initClient "k" "https" "h" 1 false (some []) "") "notes" ["a.md", "b.md"]
      = ["a.md", "b.md"] :=
  ((c10_listing_filter (initClient "k" "https" "h" 1 false (some []) "") "notes"
      ["a.md", "b.md"]).2.2.2.2 (by decide)).2
